import Mathlib

/-!
Shallow embedding of the ReceiptsHub check (receipt) pipeline:
`src/checks/utils.py`, `src/checks/service.py`, `src/checks/router.py`,
`src/checks/models.py`, `src/checks/schemas.py`, `src/products/models.py`,
`src/products/schemas.py`.

Monetary values flow through the boundary as Python `Decimal`; we embed
them as exact rationals (`ℚ`), which matches Decimal arithmetic on the
operations the code performs (`*`, `+`, `-`, comparison, `sum`).
The relational store is embedded as explicit lists of rows; SQLAlchemy
queries become list operations in table (insertion) order.
-/

/-! ## Python string primitives used by the formatting code -/

/-- `n` copies of character `c` (Python `"=" * n`). -/
def strRepl (n : Nat) (c : Char) : String :=
  String.mk (List.replicate n c)

/-- Python `f"{s:^{w}}"`: centre `s` in width `w` with spaces; when the
fill is odd the extra space goes to the right; a string longer than `w`
is returned unchanged (never truncated). -/
def pyCenter (s : String) (w : Nat) : String :=
  if w ≤ s.length then s
  else
    let fill := w - s.length
    strRepl (fill / 2) ' ' ++ s ++ strRepl (fill - fill / 2) ' '

/-- Python `f"{s:<{w}}"`: left-justify, pad with spaces, never truncate. -/
def pyLJust (s : String) (w : Nat) : String :=
  if w ≤ s.length then s else s ++ strRepl (w - s.length) ' '

/-- Python `f"{s:>{w}}"`: right-justify, pad with spaces, never truncate. -/
def pyRJust (s : String) (w : Nat) : String :=
  if w ≤ s.length then s else strRepl (w - s.length) ' ' ++ s

/-- Lexicographic comparison of character lists by code point
(Python/SQL text `<=`). -/
def listLe : List Char → List Char → Bool
  | [], _ => true
  | _ :: _, [] => false
  | a :: as, b :: bs =>
      if a < b then true else if b < a then false else listLe as bs

/-- Python/SQL text `s <= t` (lexicographic by code point). -/
def strLe (s t : String) : Bool :=
  listLe s.data t.data

/-- Zero-pad a natural to two digits (`strftime` `%d`, `%m`, `%H`, `%M`). -/
def pad2 (n : Nat) : String :=
  if n < 10 then "0" ++ Nat.repr n else Nat.repr n

/-- Zero-pad a natural to four digits (`strftime` `%Y`). -/
def pad4 (n : Nat) : String :=
  if n < 10 then "000" ++ Nat.repr n
  else if n < 100 then "00" ++ Nat.repr n
  else if n < 1000 then "0" ++ Nat.repr n
  else Nat.repr n

/-- Insert `,` every three characters, counting from the start of an
already-reversed digit list. -/
def commaGroupRev : List Char → Nat → List Char
  | [], _ => []
  | c :: cs, k =>
      if k = 3 then ',' :: c :: commaGroupRev cs 1
      else c :: commaGroupRev cs (k + 1)

/-- Thousands-group a digit string: `"1234567"` becomes `"1,234,567"`. -/
def commaGroup (ds : List Char) : List Char :=
  (commaGroupRev ds.reverse 0).reverse

/-- Round a rational to integer hundredths: `⌊100·q + 1/2⌋`.  Models the
rounding done by Python's `.2f` on currency values (exact ties aside). -/
def ratToCents (q : ℚ) : ℤ :=
  Int.fdiv (q.num * 200 + (q.den : ℤ)) ((q.den : ℤ) * 2)

/-- Python `f"{q:,.2f}"`: two fractional digits, thousands separators. -/
def formatCommaF2 (q : ℚ) : String :=
  let c := ratToCents q
  let a := c.natAbs
  (if c < 0 then "-" else "") ++
    String.mk (commaGroup (Nat.toDigits 10 (a / 100))) ++ "." ++ pad2 (a % 100)

/-- Python `f"{q:.2f}"`: two fractional digits, no grouping. -/
def formatF2 (q : ℚ) : String :=
  let c := ratToCents q
  let a := c.natAbs
  (if c < 0 then "-" else "") ++
    String.mk (Nat.toDigits 10 (a / 100)) ++ "." ++ pad2 (a % 100)

/-! ## Dates (`datetime.date` / `datetime.datetime`) -/

/-- A Python `datetime.datetime` value (fields the code reads). -/
structure PyDateTime where
  year : Nat
  month : Nat
  day : Nat
  hour : Nat
  minute : Nat
deriving DecidableEq

/-- A Python `datetime.date` value. -/
structure PyDate where
  year : Nat
  month : Nat
  day : Nat
deriving DecidableEq

/-- `datetime.date()`: drop the time-of-day component. -/
def PyDateTime.date (t : PyDateTime) : PyDate :=
  ⟨t.year, t.month, t.day⟩

/-- `Check.created_at` default: `datetime.now().date()`
(`src/checks/models.py`), with `now` the ambient clock value. -/
def storedDate (now : PyDateTime) : PyDate :=
  now.date

/-- CPython `date.timetuple()`: the time-of-day fields are zero. -/
def PyDate.timetuple (d : PyDate) : PyDateTime :=
  ⟨d.year, d.month, d.day, 0, 0⟩

/-- `strftime('%d.%m.%Y %H:%M')` on a struct-time value. -/
def strftimeDmyHm (t : PyDateTime) : String :=
  (pad2 t.day ++ "." ++ pad2 t.month ++ "." ++ pad4 t.year) ++
    (" " ++ pad2 t.hour ++ ":" ++ pad2 t.minute)

/-- `created_at.strftime('%d.%m.%Y %H:%M')` where `created_at` is a
`date`: CPython formats the date's `timetuple`. -/
def dateStrftimeDmyHm (d : PyDate) : String :=
  strftimeDmyHm d.timetuple

/-- ISO text of a date, as SQLAlchemy stores a `Date` column in SQLite
and as the filter strings compare against it. -/
def dateToIso (d : PyDate) : String :=
  pad4 d.year ++ "-" ++ pad2 d.month ++ "-" ++ pad2 d.day

/-! ## Data model

Request schemas (`src/products/schemas.py`, `src/checks/schemas.py`) and
table rows (`src/products/models.py`, `src/checks/models.py`). -/

/-- `ProductCreate` (pydantic): name, unit price, quantity.  NOTE: the
source class declares no field validators. -/
structure ProductCreate where
  name : String
  price : ℚ
  quantity : ℚ
deriving DecidableEq

/-- `ProductCreate.total` property: `price * quantity`. -/
def ProductCreate.total (p : ProductCreate) : ℚ :=
  p.price * p.quantity

/-- `PaymentCreate` (pydantic): payment type tag and tendered amount. -/
structure PaymentCreate where
  type : String
  amount : ℚ
deriving DecidableEq

/-- `CheckCreate` (pydantic): the create-check request body. -/
structure CheckCreate where
  products : List ProductCreate
  payment : PaymentCreate
deriving DecidableEq

/-- A row of the `users` table (fields the check pipeline reads). -/
structure PyUser where
  id : Nat
  full_name : String
deriving DecidableEq

/-- A row of the `checks` table (`src/checks/models.py`).  `created_at`
is a `Date` column (date granularity).  The monetary columns (`total`,
`payment_amount`, `rest`) are declared SQLAlchemy `Float` (binary
float64) in the source; here they carry the exact value the code hands
to the store — the rounding a `Float` column inflicts on non-dyadic
values is NOT modelled, and is what the C3/C6 theorems record as the
code's divergence from the spec. -/
structure StoredCheck where
  id : Nat
  user_id : Nat
  created_at : PyDate
  total : ℚ
  payment_type : String
  payment_amount : ℚ
  rest : ℚ
deriving DecidableEq

/-- A row of the `products` table (`src/products/models.py`).  As with
`StoredCheck`, the `price`/`quantity`/`total` columns are declared
`Float` in the source; the fields here carry the exact pre-storage
values, with the binary storage rounding recorded by the C3/C6
theorems rather than modelled. -/
structure StoredProduct where
  name : String
  price : ℚ
  quantity : ℚ
  total : ℚ
  check_id : Nat
deriving DecidableEq

/-- The relational store: table contents in insertion order, the next
autoincrement id, and the ambient clock used for `created_at` defaults. -/
structure Store where
  users : List PyUser
  checks : List StoredCheck
  products : List StoredProduct
  nextId : Nat
  now : PyDateTime
deriving DecidableEq

/-- Database well-formedness: autoincrement ids already handed out are
below `nextId` (guaranteed by the primary-key sequence). -/
def Store.WF (s : Store) : Prop :=
  (∀ c ∈ s.checks, c.id < s.nextId) ∧ (∀ p ∈ s.products, p.check_id < s.nextId)

/-- Errors surfaced by the handlers: `HTTPException(status, detail)` or a
pydantic response-validation `ValueError`. -/
inductive ApiError where
  | http (status : Nat) (detail : String)
  | validation (msg : String)
deriving DecidableEq

/-- `ProductResponse` (pydantic): `quantity` and `total` are declared
`int`, `price` stays `Decimal`; all three carry a non-negativity
validator. -/
structure ProductResponse where
  name : String
  price : ℚ
  quantity : ℤ
  total : ℤ
deriving DecidableEq

/-- `PaymentResponse` (pydantic). -/
structure PaymentResponse where
  type : String
  amount : ℚ
deriving DecidableEq

/-- `CreateCheckResponse` (pydantic): `total` is declared `int`, `rest`
`Decimal`; both carry a non-negativity validator. -/
structure CreateCheckResponse where
  id : Nat
  user_id : Nat
  created_at : PyDate
  total : ℤ
  payment : PaymentResponse
  rest : ℚ
  products : List ProductResponse
deriving DecidableEq

/-- Pydantic lax coercion of a `Decimal`/`float` into an `int` field:
accepted exactly when the value is integral. -/
def coerceInt (q : ℚ) : Option ℤ :=
  if q.den = 1 then some q.num else none

/-- `ProductResponse` construction: int coercion of `quantity`/`total`,
then the `check_non_negative` validator on `price`, `quantity`, `total`. -/
def mkProductResponse (p : StoredProduct) : Except ApiError ProductResponse :=
  match coerceInt p.quantity, coerceInt p.total with
  | some q, some t =>
      if p.price < 0 then .error (.validation "price cannot be negative")
      else if q < 0 then .error (.validation "quantity cannot be negative")
      else if t < 0 then .error (.validation "total cannot be negative")
      else .ok ⟨p.name, p.price, q, t⟩
  | _, _ => .error (.validation "value is not a valid integer")

/-- Build each `ProductResponse`, failing on the first invalid row. -/
def mkProductResponses : List StoredProduct → Except ApiError (List ProductResponse)
  | [] => .ok []
  | p :: ps => do
      let r ← mkProductResponse p
      let rs ← mkProductResponses ps
      .ok (r :: rs)

/-- `CreateCheckResponse` construction: int coercion of `total`, then the
`check_non_negative` validator on `total` and `rest`. -/
def mkCreateCheckResponse (c : StoredCheck) (ps : List StoredProduct) :
    Except ApiError CreateCheckResponse :=
  match coerceInt c.total with
  | none => .error (.validation "value is not a valid integer")
  | some t =>
      if t < 0 then .error (.validation "total cannot be negative")
      else if c.rest < 0 then .error (.validation "rest cannot be negative")
      else do
        let prods ← mkProductResponses ps
        .ok ⟨c.id, c.user_id, c.created_at, t,
             ⟨c.payment_type, c.payment_amount⟩, c.rest, prods⟩

/-! ## `src/checks/utils.py`: totals and persistence helpers -/

/-- The sum `calculate_totals` computes:
`sum(product.price * product.quantity for product in check_data.products)`. -/
def checkCreateTotal (check_data : CheckCreate) : ℚ :=
  (check_data.products.map (fun p => p.price * p.quantity)).sum

/-- `calculate_totals` (`src/checks/utils.py`): total and rest, raising
`HTTPException(400)` when the rest would be negative. -/
def calculate_totals (check_data : CheckCreate) : Except ApiError (ℚ × ℚ) :=
  let total := checkCreateTotal check_data
  let rest := check_data.payment.amount - total
  if rest < 0 then
    .error (.http 400 "Payment amount is less than the total price")
  else
    .ok (total, rest)

/-- `create_check_record`: the flushed `Check` row — the autoincrement id
and the `created_at` column default are assigned by the store. -/
def create_check_record (s : Store) (user_id : Nat) (total rest : ℚ)
    (payment_type : String) (payment_amount : ℚ) : StoredCheck :=
  ⟨s.nextId, user_id, storedDate s.now, total, payment_type, payment_amount, rest⟩

/-- `add_products_to_check`: the `Product` rows inserted for a check,
each with `total = price * quantity`. -/
def add_products_to_check (check_id : Nat) (products_data : List ProductCreate) :
    List StoredProduct :=
  products_data.map (fun p => ⟨p.name, p.price, p.quantity, p.price * p.quantity, check_id⟩)

/-- `fetch_check_with_products`: select the check by id (first match)
together with its product rows (`selectinload`). -/
def fetch_check_with_products (s : Store) (check_id : Nat) :
    Option (StoredCheck × List StoredProduct) :=
  match s.checks.find? (fun c => c.id == check_id) with
  | none => none
  | some c => some (c, s.products.filter (fun p => p.check_id == check_id))

/-! ## `src/checks/router.py`: the create endpoint -/

/-- `create_check` (POST `/checks/create`): compute totals (an
insufficient payment raises before anything is added to the session, so
the store is unchanged), insert the check row, insert its product rows,
commit, re-fetch, and serialize the response.  Returns the resulting
store together with the handler outcome. -/
def create_check (check_data : CheckCreate) (user : PyUser) (s : Store) :
    Store × Except ApiError CreateCheckResponse :=
  match calculate_totals check_data with
  | .error e => (s, .error e)
  | .ok (total, rest) =>
      let new_check := create_check_record s user.id total rest
        check_data.payment.type check_data.payment.amount
      let s1 : Store := { s with checks := s.checks ++ [new_check], nextId := s.nextId + 1 }
      let new_products := add_products_to_check new_check.id check_data.products
      let s2 : Store := { s1 with products := s1.products ++ new_products }
      match fetch_check_with_products s2 new_check.id with
      | none => (s2, .error (.http 500 "check row missing after commit"))
      | some (c, ps) => (s2, mkCreateCheckResponse c ps)

/-! ## `src/checks/service.py` and the filter logic -/

/-- `get_check_by_id_from_db`: select the check whose `id` **and**
`user_id` both match; `scalars().first()` is the first such row. -/
def get_check_by_id_from_db (check_id user_id : Nat) (s : Store) :
    Option StoredCheck :=
  s.checks.find? (fun c => c.id == check_id && c.user_id == user_id)

/-- `GetDetailCheckResponse`: `CreateCheckResponse` plus `receipt_url`. -/
structure GetDetailCheckResponse where
  base : CreateCheckResponse
  receipt_url : String
deriving DecidableEq

/-- `get_check_by_id` (GET `/checks/{check_id}`): owner-scoped lookup;
a missing row raises `HTTPException(404, "Check not found")`; otherwise
the detail response is serialized. -/
def get_check_by_id (check_id : Nat) (request_url : String) (user : PyUser)
    (s : Store) : Except ApiError GetDetailCheckResponse :=
  match get_check_by_id_from_db check_id user.id s with
  | none => .error (.http 404 "Check not found")
  | some check =>
      match mkCreateCheckResponse check
        (s.products.filter (fun p => p.check_id == check.id)) with
      | .error e => .error e
      | .ok base => .ok ⟨base, request_url ++ "/text"⟩

/-- `CheckFilterParams` (`src/checks/schemas.py`): all filters optional;
the date bounds arrive as ISO text. -/
structure CheckFilterParams where
  created_from : Option String
  created_to : Option String
  min_total : Option ℚ
  max_total : Option ℚ
  payment_type : Option String
deriving DecidableEq

/-- `apply_filters` (`src/checks/utils.py`): each clause is appended only
when the parameter is truthy in Python (`if filters.x:`), i.e. present
and neither `0` nor the empty string; the `user_id` clause is appended
unconditionally. -/
def apply_filters (filters : CheckFilterParams) (user_id : Nat) :
    List (StoredCheck → Bool) :=
  (match filters.created_from with
   | some v => if v = "" then [] else [fun c => strLe v (dateToIso c.created_at)]
   | none => []) ++
  (match filters.created_to with
   | some v => if v = "" then [] else [fun c => strLe (dateToIso c.created_at) v]
   | none => []) ++
  (match filters.min_total with
   | some v => if v = 0 then [] else [fun c => decide (v ≤ c.total)]
   | none => []) ++
  (match filters.max_total with
   | some v => if v = 0 then [] else [fun c => decide (c.total ≤ v)]
   | none => []) ++
  (match filters.payment_type with
   | some v => if v = "" then [] else [fun c => c.payment_type == v]
   | none => []) ++
  [fun c => c.user_id == user_id]

/-- `get_filtered_checks_query` (`src/checks/service.py`):
`where(and_(*filters, Check.user_id == user_id)).offset(skip).limit(per_page)`
over the checks table in insertion order. -/
def get_filtered_checks_query (s : Store) (filters : List (StoredCheck → Bool))
    (user_id skip per_page : Nat) : List StoredCheck :=
  (((s.checks.filter
      (fun c => filters.all (fun f => f c) && c.user_id == user_id)).drop skip).take per_page)

/-- `list_checks` (GET `/checks/list`): build the filter clauses for the
authenticated user and run the paginated query. -/
def list_checks (filters : CheckFilterParams) (user : PyUser)
    (skip per_page : Nat) (s : Store) : List StoredCheck :=
  get_filtered_checks_query s (apply_filters filters user.id) user.id skip per_page

/-! ## `src/checks/utils.py`: the fixed-width receipt formatter -/

/-- The centred title row of `format_header`:
`f"{'ФОП ' + user_full_name:^{line_width}}"`. -/
def headerTitleRow (user_full_name : String) (line_width : Nat) : String :=
  pyCenter ("ФОП " ++ user_full_name) line_width

/-- A full-width rule row (`"=" * line_width`). -/
def ruleRow (c : Char) (line_width : Nat) : String :=
  strRepl line_width c

/-- `format_header`: centred FOP title plus a `=` rule. -/
def format_header (user_full_name : String) (line_width : Nat) : String :=
  headerTitleRow user_full_name line_width ++ "\n" ++ ruleRow '=' line_width ++ "\n"

/-- One labelled right-aligned numeric row of `format_summary`:
label left-justified in `line_width / 2`, value right-justified in the
remaining columns with `,.2f` formatting. -/
def summaryRow (label : String) (value : ℚ) (line_width : Nat) : String :=
  pyLJust label (line_width / 2) ++
    pyRJust (formatCommaF2 value) (line_width - line_width / 2)

/-- `format_summary`: total, payment amount and rest rows. -/
def format_summary (check : StoredCheck) (line_width : Nat) : String :=
  summaryRow "СУМА" check.total line_width ++ "\n" ++
  summaryRow "Картка" check.payment_amount line_width ++ "\n" ++
  summaryRow "Решта" check.rest line_width ++ "\n"

/-- `format_products`: per product, a name/quantity-price row and a
right-aligned line-total row. -/
def format_products (products : List StoredProduct) (line_width : Nat) : String :=
  let sum_label_width := line_width / 2
  let sum_value_width := line_width - sum_label_width
  String.join (products.map (fun p =>
    pyLJust p.name sum_label_width ++
      pyRJust (formatF2 p.quantity ++ " x " ++ formatCommaF2 p.price) sum_value_width ++ "\n" ++
    pyLJust "" sum_label_width ++ pyRJust (formatCommaF2 p.total) sum_value_width ++ "\n"))

/-- `format_footer`: the centred `%d.%m.%Y %H:%M` timestamp of the
(date-typed) `created_at`, plus the centred thank-you line. -/
def format_footer (created_at : PyDate) (line_width : Nat) : String :=
  pyCenter (dateStrftimeDmyHm created_at) line_width ++ "\n" ++
    pyCenter "Дякуємо за покупку!" line_width

/-! ## `src/checks/router.py`: the text-receipt endpoint -/

/-- The width query parameters of GET `/checks/{check_id}/text`. -/
structure TextWidths where
  fop_width : Nat
  qty_width : Nat
  price_width : Nat
  name_width : Nat
  total_width : Nat
  sum_width : Nat
  payment_width : Nat
  date_width : Nat
deriving DecidableEq

/-- The receipt text `get_check_text` assembles from the fetched check,
its owning user row and its product rows. -/
def render_check_text (check : StoredCheck) (user : PyUser)
    (products : List StoredProduct) (w : TextWidths) : String :=
  let rule := strRepl (w.fop_width + user.full_name.length + 1) '='
  let dash := strRepl (w.fop_width + user.full_name.length + 1) '-'
  pyRJust "ФОП" w.fop_width ++ " " ++ user.full_name ++ "\n" ++
  rule ++ "\n" ++
  String.join (products.map (fun p =>
    pyRJust (formatF2 p.quantity) w.qty_width ++ " x " ++
      pyRJust (formatCommaF2 p.price) w.price_width ++ "\n" ++
    pyLJust p.name w.name_width ++ " " ++
      pyRJust (formatCommaF2 p.total) w.total_width ++ "\n")) ++
  dash ++ "\n" ++
  pyLJust "СУМА" w.sum_width ++ " " ++
    pyRJust (formatCommaF2 check.total) w.total_width ++ "\n" ++
  pyLJust "Картка" w.payment_width ++ " " ++
    pyRJust (formatCommaF2 check.payment_amount) w.total_width ++ "\n" ++
  pyLJust "Решта" w.payment_width ++ " " ++
    pyRJust (formatCommaF2 check.rest) w.total_width ++ "\n" ++
  rule ++ "\n" ++
  pyLJust (dateStrftimeDmyHm check.created_at) w.date_width ++ "\n" ++
  "Дякуємо за покупку!"

/-- `get_check_text` (GET `/checks/{check_id}/text`): the check is
selected **by id alone** (`where(Check.id == check_id)`, no `user_id`
clause), its user and products eagerly loaded, and the receipt rendered;
a missing row raises `HTTPException(404)`.  The route declares no
authentication dependency.  (The user-row lookup models `selectinload(
Check.user)`; the 500 branch is unreachable under the FK constraint.) -/
def get_check_text (check_id : Nat) (w : TextWidths) (s : Store) :
    Except ApiError String :=
  match s.checks.find? (fun c => c.id == check_id) with
  | none => .error (.http 404 "Check not found")
  | some check =>
      match s.users.find? (fun u => u.id == check.user_id) with
      | none => .error (.http 500 "user row missing")
      | some user =>
          .ok (render_check_text check user
            (s.products.filter (fun p => p.check_id == check.id)) w)

/-- The text-receipt request as the transport layer sees it: an optional
authenticated caller arrives with the request, but the route declares no
auth dependency, so the handler is invoked without it. -/
def get_check_text_request (_requester : Option PyUser) (check_id : Nat)
    (w : TextWidths) (s : Store) : Except ApiError String :=
  get_check_text check_id w s

/-! ## Spec-side definitions (for refinement comparison) -/

/-- The error `calculate_totals` raises on insufficient payment. -/
def insufficientPaymentError : ApiError :=
  .http 400 "Payment amount is less than the total price"

/-- `lineTotal(unitPrice, quantity)` of spec §4.1, as the code computes
it (`ProductCreate.total`, `calculate_totals`, `add_products_to_check`):
the exact product of price and quantity. -/
def lineTotal (unitPrice quantity : ℚ) : ℚ :=
  unitPrice * quantity

/-- Whether a rational is exactly representable as a binary float value
ignoring precision/range limits, i.e. is a dyadic rational: computably,
its reduced denominator divides `2 ^ den`, which holds exactly when the
denominator is a power of two.  (A finite IEEE-754 double is
`m / 2^k`; a non-dyadic value can never be stored exactly in the `Float`
columns of `src/products/models.py` / `src/checks/models.py`.) -/
def dyadicDen (x : ℚ) : Bool :=
  decide (x.den ∣ 2 ^ x.den)

/-- Modelled from the spec's words for `list` (spec §4.3): the
conjunction of the supplied filters, plus owner scoping — a filter is
"supplied" exactly when the optional parameter is present. -/
def specFilterMatch (f : CheckFilterParams) (owner : Nat) (c : StoredCheck) : Bool :=
  (c.user_id == owner) &&
  (match f.created_from with
   | some v => strLe v (dateToIso c.created_at)
   | none => true) &&
  (match f.created_to with
   | some v => strLe (dateToIso c.created_at) v
   | none => true) &&
  (match f.min_total with
   | some v => decide (v ≤ c.total)
   | none => true) &&
  (match f.max_total with
   | some v => decide (c.total ≤ v)
   | none => true) &&
  (match f.payment_type with
   | some v => c.payment_type == v
   | none => true)

/-- The amended reading of the `list` contract: as `specFilterMatch`,
except that a filter supplied with a Python-falsy value (`0` for the
total bounds, the empty string for the date bounds and payment type) is
treated as absent. -/
def specFilterMatchAmended (f : CheckFilterParams) (owner : Nat) (c : StoredCheck) : Bool :=
  (c.user_id == owner) &&
  (match f.created_from with
   | some v => v == "" || strLe v (dateToIso c.created_at)
   | none => true) &&
  (match f.created_to with
   | some v => v == "" || strLe (dateToIso c.created_at) v
   | none => true) &&
  (match f.min_total with
   | some v => v == 0 || decide (v ≤ c.total)
   | none => true) &&
  (match f.max_total with
   | some v => v == 0 || decide (c.total ≤ v)
   | none => true) &&
  (match f.payment_type with
   | some v => v == "" || c.payment_type == v
   | none => true)

/-! ## Concrete fixtures used by witnesses and counterexamples -/

/-- A clock value with a non-midnight time of day. -/
def sampleNow : PyDateTime := ⟨2024, 1, 15, 12, 30⟩

/-- Requesting user A. -/
def userA : PyUser := ⟨1, "Іван Петренко"⟩

/-- A different user B. -/
def userB : PyUser := ⟨2, "Богдан Ковальчук"⟩

/-- A store with both users registered and no checks yet. -/
def store0 : Store := ⟨[userA, userB], [], [], 0, sampleNow⟩

/-- The spec §8 scenario items: Bread 25.50 × 2, Milk 40.00 × 1. -/
def sampleItems : List ProductCreate := [⟨"Bread", 51/2, 2⟩, ⟨"Milk", 40, 1⟩]

/-- The spec §8 scenario request with sufficient cash payment 100.00. -/
def sampleRequest : CheckCreate := ⟨sampleItems, ⟨"cash", 100⟩⟩

/-- A request with a blank product name and a negative unit price. -/
def blankNegativeRequest : CheckCreate := ⟨[⟨"", -5, 2⟩], ⟨"cash", 100⟩⟩

/-- A check (id 7) owned by user B. -/
def checkB : StoredCheck := ⟨7, 2, ⟨2024, 1, 15⟩, 91, "cash", 100, 9⟩

/-- A store holding only user B's check. -/
def storeB : Store := ⟨[userA, userB], [checkB], [], 8, sampleNow⟩

/-! ## Helper lemmas -/

theorem length_strRepl (n : Nat) (c : Char) : (strRepl n c).length = n := by
  simp [strRepl, String.length_mk]

theorem length_pyLJust (s : String) (w : Nat) :
    (pyLJust s w).length = max s.length w := by
  unfold pyLJust
  split <;> simp_all [String.length_append, length_strRepl] <;> omega

theorem length_pyRJust (s : String) (w : Nat) :
    (pyRJust s w).length = max s.length w := by
  unfold pyRJust
  split <;> simp_all [String.length_append, length_strRepl] <;> omega

theorem length_pyCenter (s : String) (w : Nat) :
    (pyCenter s w).length = max s.length w := by
  unfold pyCenter
  split <;> simp_all [String.length_append, length_strRepl] <;> omega

/-- `calculate_totals` fails exactly when the tendered amount is below
the sum of line totals, and then returns the 400 error. -/
theorem calculate_totals_insufficient (d : CheckCreate)
    (h : d.payment.amount < checkCreateTotal d) :
    calculate_totals d = .error insufficientPaymentError := by
  unfold calculate_totals
  have : d.payment.amount - checkCreateTotal d < 0 := by linarith
  simp [this, insufficientPaymentError]

/-- On insufficient payment `create_check` raises before touching the
session: the store comes back unchanged. -/
theorem create_check_insufficient (d : CheckCreate) (u : PyUser) (s : Store)
    (h : d.payment.amount < checkCreateTotal d) :
    create_check d u s = (s, .error insufficientPaymentError) := by
  unfold create_check
  rw [calculate_totals_insufficient d h]

/-- On sufficient payment `create_check` appends exactly the new check
row and its product rows. -/
theorem create_check_sufficient (d : CheckCreate) (u : PyUser) (s : Store)
    (h : checkCreateTotal d ≤ d.payment.amount) :
    ((create_check d u s).1).checks = s.checks ++
      [create_check_record s u.id (checkCreateTotal d)
        (d.payment.amount - checkCreateTotal d) d.payment.type d.payment.amount] ∧
    ((create_check d u s).1).products = s.products ++
      add_products_to_check s.nextId d.products := by
  unfold create_check calculate_totals
  have hn : ¬ (d.payment.amount - checkCreateTotal d < 0) := by linarith
  simp only [if_neg hn]
  constructor
  · split
    · simp [create_check_record]
    · simp [create_check_record]
  · split
    · simp [create_check_record]
    · simp [create_check_record]

/-! ## Claim theorems -/

/-- C1: a `createCheck` request whose tendered payment amount is strictly
below the sum of the line totals fails with the `InsufficientPayment`
error (`HTTPException 400, "Payment amount is less than the total
price"`) raised before any persistence: the handler result carries the
store unchanged — no check header and no product rows are written. -/
theorem C1_insufficient_payment_no_persistence
    (d : CheckCreate) (u : PyUser) (s : Store)
    (h : d.payment.amount < checkCreateTotal d) :
    create_check d u s = (s, .error insufficientPaymentError) :=
  create_check_insufficient d u s h

/-- C1 witness: the spec §8 scenario — Bread 25.50 × 2 and Milk 40.00 × 1
against a tendered 50.00 — is rejected and `store0` is untouched. -/
theorem C1_insufficient_payment_no_persistence_witness :
    create_check ⟨sampleItems, ⟨"cash", 50⟩⟩ userA store0 =
      (store0, .error insufficientPaymentError) :=
  C1_insufficient_payment_no_persistence ⟨sampleItems, ⟨"cash", 50⟩⟩ userA store0
    (by simp [checkCreateTotal, sampleItems]; norm_num)

/-- C2: `getById` is owner-scoped: it returns a check only when a check
with that id owned by the requester exists, and whenever no such check
exists — the id is absent entirely, or the check belongs to a different
owner — the outcome is exactly the same `404 "Check not found"` error,
never a permission error that leaks existence. -/
theorem C2_getById_owner_scoped
    (s : Store) (check_id : Nat) (user : PyUser) (url : String) :
    (∀ r, get_check_by_id check_id url user s = .ok r →
      ∃ c ∈ s.checks, c.id = check_id ∧ c.user_id = user.id) ∧
    ((∀ c ∈ s.checks, ¬(c.id = check_id ∧ c.user_id = user.id)) →
      get_check_by_id check_id url user s = .error (.http 404 "Check not found")) := by
  constructor
  · intro r hr
    unfold get_check_by_id at hr
    cases hfind : get_check_by_id_from_db check_id user.id s with
    | none => rw [hfind] at hr; exact absurd hr (by simp)
    | some c =>
        refine ⟨c, List.mem_of_find?_eq_some hfind, ?_⟩
        have hp := List.find?_some hfind
        simp only [Bool.and_eq_true, beq_iff_eq] at hp
        exact hp
  · intro hnone
    unfold get_check_by_id get_check_by_id_from_db
    have : s.checks.find? (fun c => c.id == check_id && c.user_id == user.id) = none := by
      rw [List.find?_eq_none]
      intro c hc
      simp only [Bool.and_eq_true, beq_iff_eq, not_and]
      intro h1 h2
      exact hnone c hc ⟨h1, h2⟩
    rw [this]

/-- C2 witness: user A requesting check id 7, which exists but belongs
to user B, receives the same 404 as for a non-existent id. -/
theorem C2_getById_owner_scoped_witness :
    get_check_by_id 7 "http://h/checks/7" userA storeB =
      .error (.http 404 "Check not found") :=
  (C2_getById_owner_scoped storeB 7 userA "http://h/checks/7").2 (by decide)

/-- The decimal-layer invariants: the exact values `createCheck`
computes and hands to the store (before the `Float` columns round them)
satisfy: each line total equals unit price times quantity, the check
total equals the sum of the line totals, total plus rest equals the
tendered payment amount, and rest is non-negative.  This is the exact
`Decimal` computation layer only — the `Float` table columns of
`src/products/models.py` and `src/checks/models.py` cannot hold these
values exactly when they are not dyadic, so the equalities do not
survive storage (see the C3 and C6 theorems). -/
theorem decimal_layer_invariants (d : CheckCreate) (u : PyUser) (s : Store)
    (h : checkCreateTotal d ≤ d.payment.amount) :
    ∃ c ps,
      ((create_check d u s).1).checks = s.checks ++ [c] ∧
      ((create_check d u s).1).products = s.products ++ ps ∧
      (∀ p ∈ ps, p.check_id = c.id ∧ p.total = p.price * p.quantity) ∧
      c.total = (ps.map (fun p => p.total)).sum ∧
      c.total + c.rest = c.payment_amount ∧
      0 ≤ c.rest := by
  obtain ⟨hc, hp⟩ := create_check_sufficient d u s h
  refine ⟨_, _, hc, hp, ?_, ?_, ?_, ?_⟩
  · intro p hpmem
    unfold add_products_to_check at hpmem
    obtain ⟨q, _, rfl⟩ := List.mem_map.mp hpmem
    exact ⟨rfl, rfl⟩
  · show checkCreateTotal d = _
    unfold add_products_to_check checkCreateTotal
    rw [List.map_map]
    rfl
  · show checkCreateTotal d + (d.payment.amount - checkCreateTotal d) = d.payment.amount
    ring
  · show (0 : ℚ) ≤ d.payment.amount - checkCreateTotal d
    linarith

/-- C4 counterexample: the request with a blank product name and a
negative unit price (`blankNegativeRequest`) is **not** rejected before
persistence: `create_check` writes both the check header (total −10.00,
rest 110.00) and the invalid product row.  No `InvalidLineItem`
rejection exists on the create path. -/
theorem C4_counterexample :
    ((create_check blankNegativeRequest userA store0).1).checks =
      [⟨0, 1, ⟨2024, 1, 15⟩, -10, "cash", 100, 110⟩] ∧
    ((create_check blankNegativeRequest userA store0).1).products =
      [⟨"", -5, 2, -10, 0⟩] := by
  have h : checkCreateTotal blankNegativeRequest ≤
      blankNegativeRequest.payment.amount := by
    simp [checkCreateTotal, blankNegativeRequest]; norm_num
  obtain ⟨hc, hp⟩ := create_check_sufficient blankNegativeRequest userA store0 h
  constructor
  · rw [hc]
    simp [store0, create_check_record, blankNegativeRequest, checkCreateTotal,
      storedDate, PyDateTime.date, sampleNow, userA]
    norm_num
  · rw [hp]
    simp [store0, add_products_to_check, blankNegativeRequest]
    norm_num

/-- C4 amended: `createCheck` performs no line-item validation before
persistence — blank names and negative prices or quantities are accepted
and persisted; the only pre-persistence rejection is
`InsufficientPayment`: with insufficient payment the store is unchanged
and the 400 error raised, and with sufficient payment the check row and
every requested line item (valid or not) are written. -/
theorem C4_no_line_item_validation (d : CheckCreate) (u : PyUser) (s : Store) :
    (d.payment.amount < checkCreateTotal d →
      create_check d u s = (s, .error insufficientPaymentError)) ∧
    (checkCreateTotal d ≤ d.payment.amount →
      ((create_check d u s).1).checks = s.checks ++
        [create_check_record s u.id (checkCreateTotal d)
          (d.payment.amount - checkCreateTotal d) d.payment.type d.payment.amount] ∧
      ((create_check d u s).1).products = s.products ++
        add_products_to_check s.nextId d.products) :=
  ⟨create_check_insufficient d u s, create_check_sufficient d u s⟩

/-- C4 amended witness: the blank-name negative-price request with ample
payment is persisted in full. -/
theorem C4_no_line_item_validation_witness :
    ((create_check blankNegativeRequest userA store0).1).checks =
      store0.checks ++
        [create_check_record store0 userA.id (checkCreateTotal blankNegativeRequest)
          (blankNegativeRequest.payment.amount - checkCreateTotal blankNegativeRequest)
          blankNegativeRequest.payment.type blankNegativeRequest.payment.amount] ∧
    ((create_check blankNegativeRequest userA store0).1).products =
      store0.products ++
        add_products_to_check store0.nextId blankNegativeRequest.products :=
  (C4_no_line_item_validation blankNegativeRequest userA store0).2
    (by simp [checkCreateTotal, blankNegativeRequest]; norm_num)

/-- Under a well-formed store, no existing check row carries the fresh
autoincrement id. -/
theorem find?_fresh_id_none (s : Store) (hWF : Store.WF s) :
    s.checks.find? (fun c => c.id == s.nextId) = none := by
  rw [List.find?_eq_none]
  intro c hc
  simp only [beq_iff_eq]
  exact Nat.ne_of_lt (hWF.1 c hc)

/-- Under a well-formed store, no existing product row carries the fresh
autoincrement id. -/
theorem filter_fresh_id_nil (s : Store) (hWF : Store.WF s) :
    s.products.filter (fun p => p.check_id == s.nextId) = [] := by
  rw [List.filter_eq_nil_iff]
  intro p hp
  simp only [beq_iff_eq]
  exact Nat.ne_of_lt (hWF.2 p hp)

/-- C9: `createCheck` with an empty line-item sequence and a non-negative
payment amount succeeds end to end: the computed total is 0, the rest is
the full payment amount, a check row with zero product rows is
persisted, and the response serializes without error. -/
theorem C9_empty_line_items (t : String) (a : ℚ) (u : PyUser) (s : Store)
    (hWF : Store.WF s) (ha : 0 ≤ a) :
    ((create_check ⟨[], ⟨t, a⟩⟩ u s).1).checks =
      s.checks ++ [⟨s.nextId, u.id, storedDate s.now, 0, t, a, a⟩] ∧
    ((create_check ⟨[], ⟨t, a⟩⟩ u s).1).products = s.products ∧
    ((create_check ⟨[], ⟨t, a⟩⟩ u s).2).toOption.isSome = true := by
  have htot : checkCreateTotal ⟨[], ⟨t, a⟩⟩ = 0 := by
    simp [checkCreateTotal]
  have hrest : ¬ ((a : ℚ) - 0 < 0) := by linarith
  have hfind := find?_fresh_id_none s hWF
  have hfilter := filter_fresh_id_nil s hWF
  unfold create_check calculate_totals create_check_record add_products_to_check
    fetch_check_with_products
  simp only [htot, List.map_nil, List.append_nil, sub_zero]
  rw [if_neg (by simpa using hrest)]
  simp only [List.find?_append, hfind, Option.none_or]
  simp only [List.find?_cons, beq_self_eq_true, cond_true, List.find?_nil]
  simp only [hfilter]
  refine ⟨trivial, trivial, ?_⟩
  unfold mkCreateCheckResponse coerceInt mkProductResponses
  norm_num
  rw [if_neg (not_lt.mpr ha)]
  rfl

/-- C9 witness: an empty-item check with payment 100.00 on the fresh
store succeeds; total 0, rest 100, no product rows. -/
theorem C9_empty_line_items_witness :
    ((create_check ⟨[], ⟨"card", 100⟩⟩ userA store0).1).checks =
      store0.checks ++ [⟨store0.nextId, userA.id, storedDate store0.now, 0, "card", 100, 100⟩] ∧
    ((create_check ⟨[], ⟨"card", 100⟩⟩ userA store0).1).products = store0.products ∧
    ((create_check ⟨[], ⟨"card", 100⟩⟩ userA store0).2).toOption.isSome = true :=
  C9_empty_line_items "card" 100 userA store0
    (by constructor <;> intro x hx <;> simp [store0] at hx) (by norm_num)

/-- Evaluating an optional string-filter clause list at one check. -/
theorem all_strClause (o : Option String) (mk : String → StoredCheck → Bool)
    (c : StoredCheck) :
    ((match o with
      | some v => if v = "" then [] else [mk v]
      | none => ([] : List (StoredCheck → Bool))).all (fun φ => φ c)) =
    (match o with
     | some v => v == "" || mk v c
     | none => true) := by
  cases o with
  | none => rfl
  | some v =>
      by_cases hv : v = ""
      · simp [hv]
      · simp [hv]

/-- Evaluating an optional numeric-filter clause list at one check. -/
theorem all_ratClause (o : Option ℚ) (mk : ℚ → StoredCheck → Bool)
    (c : StoredCheck) :
    ((match o with
      | some v => if v = 0 then [] else [mk v]
      | none => ([] : List (StoredCheck → Bool))).all (fun φ => φ c)) =
    (match o with
     | some v => v == 0 || mk v c
     | none => true) := by
  cases o with
  | none => rfl
  | some v =>
      by_cases hv : v = 0
      · simp [hv]
      · simp [hv]

/-- The conjunction of the clauses built by `apply_filters`, together
with the redundant `user_id` clause `get_filtered_checks_query` adds,
equals the amended spec-side predicate. -/
theorem apply_filters_all_eq (f : CheckFilterParams) (uid : Nat) (c : StoredCheck) :
    ((apply_filters f uid).all (fun φ => φ c) && (c.user_id == uid)) =
    specFilterMatchAmended f uid c := by
  rcases f with ⟨cf, ct, mn, mx, pt⟩
  simp only [apply_filters, specFilterMatchAmended, List.all_append,
    List.all_cons, List.all_nil]
  rw [all_strClause cf, all_strClause ct, all_ratClause mn, all_ratClause mx,
    all_strClause pt]
  generalize (match cf with
    | some v => v == "" || strLe v (dateToIso c.created_at)
    | none => true) = a
  generalize (match ct with
    | some v => v == "" || strLe (dateToIso c.created_at) v
    | none => true) = b
  generalize (match mn with
    | some v => v == 0 || decide (v ≤ c.total)
    | none => true) = d
  generalize (match mx with
    | some v => v == 0 || decide (c.total ≤ v)
    | none => true) = e
  generalize (match pt with
    | some v => v == "" || (c.payment_type == v)
    | none => true) = g
  generalize (c.user_id == uid) = u
  cases a <;> cases b <;> cases d <;> cases e <;> cases g <;> cases u <;> rfl

/-- A one-check store for exercising the list filters: user A owns a
check with total 91.00. -/
def check91 : StoredCheck := ⟨0, 1, ⟨2024, 1, 10⟩, 91, "cash", 100, 9⟩

/-- The store holding only `check91`. -/
def store91 : Store := ⟨[userA], [check91], [], 1, sampleNow⟩

/-- The filter assignment `max_total = 0` (all other filters absent). -/
def filterMax0 : CheckFilterParams := ⟨none, none, none, some 0, none⟩

/-- C5 counterexample: with the supplied filter `max_total = 0`, the
claim demands that only checks with total ≤ 0 be returned, yet the code
returns user A's 91.00 check — `apply_filters` tests Python truthiness
(`if filters.max_total:`), so a filter supplied as `0` is dropped.
`specFilterMatch` is the spec-side conjunction of the supplied filters,
and the returned check fails it. -/
theorem C5_counterexample :
    list_checks filterMax0 userA 0 10 store91 = [check91] ∧
    specFilterMatch filterMax0 userA.id check91 = false := by
  constructor
  · unfold list_checks get_filtered_checks_query apply_filters
    simp [filterMax0, store91, check91, userA]
  · unfold specFilterMatch
    simp only [filterMax0, check91, userA]
    norm_num

/-- C5 amended: `list` returns exactly the requester's checks satisfying
the conjunction of the supplied filters — except that a filter supplied
with a Python-falsy value (`0` for a total bound, the empty string for a
date bound or payment type) is treated as absent — in table order, with
`offset` skipping that many matching rows and `limit` capping the result
count; owner scoping is always applied (the `user_id` clause is appended
unconditionally and repeated in the query) and is not user-overridable. -/
theorem C5_list_filters_amended (f : CheckFilterParams) (user : PyUser)
    (skip per_page : Nat) (s : Store) :
    list_checks f user skip per_page s =
      ((s.checks.filter (fun c => specFilterMatchAmended f user.id c)).drop
        skip).take per_page := by
  unfold list_checks get_filtered_checks_query
  congr 2
  apply List.filter_congr
  intro c _
  exact apply_filters_all_eq f user.id c

/-- `dyadicDen` captures exactly the dyadic rationals: the values a
binary float column could in principle hold without rounding. -/
theorem dyadic_iff_dyadicDen (x : ℚ) :
    (∃ m : ℤ, ∃ k : ℕ, x = (m : ℚ) / 2 ^ k) ↔ dyadicDen x = true := by
  constructor
  · rintro ⟨m, k, rfl⟩
    have hdiv : ((m : ℚ) / 2 ^ k) = Rat.divInt m (2 ^ k) := by
      rw [Rat.divInt_eq_div]
      push_cast
      ring
    have hdvd : ((Rat.divInt m (2 ^ k)).den : ℤ) ∣ (2 ^ k : ℤ) := Rat.den_dvd m (2 ^ k)
    rw [hdiv]
    have hdvdNat : (Rat.divInt m (2 ^ k)).den ∣ 2 ^ k := by
      have h2 : ((Rat.divInt m (2 ^ k)).den : ℤ) ∣ ((2 ^ k : ℕ) : ℤ) := by
        push_cast
        exact hdvd
      exact_mod_cast h2
    obtain ⟨j, _, hj⟩ := (Nat.dvd_prime_pow Nat.prime_two).mp hdvdNat
    simp only [dyadicDen, decide_eq_true_eq]
    rw [hj]
    exact pow_dvd_pow 2 (Nat.le_of_lt (Nat.lt_two_pow j))
  · intro hb
    simp only [dyadicDen, decide_eq_true_eq] at hb
    obtain ⟨j, _, hj⟩ := (Nat.dvd_prime_pow Nat.prime_two).mp hb
    refine ⟨x.num, j, ?_⟩
    conv_lhs => rw [← Rat.num_div_den x, hj]
    push_cast
    ring

/-- The exact decimal 3/10 is not a dyadic rational. -/
theorem three_tenths_not_dyadic (m : ℤ) (k : ℕ) : (3 / 10 : ℚ) ≠ (m : ℚ) / 2 ^ k := by
  intro heq
  have h2k : ((2 : ℚ) ^ k) ≠ 0 := by positivity
  have hq : (3 : ℚ) * 2 ^ k = m * 10 := by
    field_simp at heq
    linarith
  have hz : (3 : ℤ) * 2 ^ k = m * 10 := by exact_mod_cast hq
  have h5 : (5 : ℤ) ∣ 3 * 2 ^ k := ⟨2 * m, by linarith⟩
  have hp : Prime (5 : ℤ) := by norm_num
  rcases (hp.2.2 3 (2 ^ k) h5) with h3 | hpow
  · omega
  · have := hp.dvd_of_dvd_pow hpow
    omega

/-- C6: the line-total arithmetic itself is exact — `lineTotal(0.10, 3)`
is exactly `0.30` in the `Decimal` layer — but `0.30` is **not** a dyadic
rational, so the binary `Float` columns that `src/products/models.py`
and `src/checks/models.py` declare for price/total/rest cannot store it
exactly: the stored fields do incur binary floating-point rounding,
contradicting the claim's "no binary floating-point rounding drift in
the price, total and rest fields". -/
theorem C6_exact_decimal_not_float_storable :
    lineTotal (1 / 10) 3 = 3 / 10 ∧
    dyadicDen (lineTotal (1 / 10) 3) = false := by
  have h1 : lineTotal (1 / 10) 3 = 3 / 10 := by
    unfold lineTotal
    norm_num
  refine ⟨h1, ?_⟩
  rw [h1]
  cases hb : dyadicDen (3 / 10 : ℚ) with
  | false => rfl
  | true =>
      obtain ⟨m, k, hmk⟩ := (dyadic_iff_dyadicDen (3 / 10 : ℚ)).mpr hb
      exact absurd hmk (three_tenths_not_dyadic m k)

/-- C7 counterexample: with `lineWidth = 20` (within the claimed
`lineWidth ≥ 20` range) a check whose owner's full name has 22
characters produces a header row of length 26, not 20 — Python's
centring pads but never truncates, so `format_header` overflows the
line for any name longer than `lineWidth - 4`. -/
theorem C7_counterexample :
    (headerTitleRow "Петренко Іван Іванович" 20).length = 26 ∧ 26 ≠ 20 := by
  constructor
  · decide
  · decide

/-- C7 amended: header title row, separator-rule row and summary rows of
`format_header`/`format_summary` each have length exactly `lineWidth`
for every `lineWidth ≥ 20`, **provided** the title (`"ФОП " + name`)
fits within `lineWidth` and each formatted summary value fits within its
value column (`lineWidth - lineWidth / 2`): Python's padding never
truncates, so over-long content overflows the row instead. -/
theorem C7_row_lengths (name : String) (chk : StoredCheck) (lw : Nat)
    (hlw : 20 ≤ lw)
    (hname : ("ФОП " ++ name).length ≤ lw)
    (ht : (formatCommaF2 chk.total).length ≤ lw - lw / 2)
    (hp : (formatCommaF2 chk.payment_amount).length ≤ lw - lw / 2)
    (hr : (formatCommaF2 chk.rest).length ≤ lw - lw / 2) :
    (headerTitleRow name lw).length = lw ∧
    (ruleRow '=' lw).length = lw ∧
    (summaryRow "СУМА" chk.total lw).length = lw ∧
    (summaryRow "Картка" chk.payment_amount lw).length = lw ∧
    (summaryRow "Решта" chk.rest lw).length = lw := by
  have h1 : ("СУМА" : String).length = 4 := rfl
  have h2 : ("Картка" : String).length = 6 := rfl
  have h3 : ("Решта" : String).length = 5 := rfl
  refine ⟨?_, ?_, ?_, ?_, ?_⟩
  · rw [headerTitleRow, length_pyCenter]
    omega
  · exact length_strRepl lw '='
  · rw [summaryRow, String.length_append, length_pyLJust, length_pyRJust, h1]
    omega
  · rw [summaryRow, String.length_append, length_pyLJust, length_pyRJust, h2]
    omega
  · rw [summaryRow, String.length_append, length_pyLJust, length_pyRJust, h3]
    omega

/-- C7 amended witness: at `lineWidth = 20`, owner name "Іван" and the
91.00/100.00/9.00 check, every row is exactly 20 characters wide. -/
theorem C7_row_lengths_witness :
    (headerTitleRow "Іван" 20).length = 20 ∧
    (ruleRow '=' 20).length = 20 ∧
    (summaryRow "СУМА" check91.total 20).length = 20 ∧
    (summaryRow "Картка" check91.payment_amount 20).length = 20 ∧
    (summaryRow "Решта" check91.rest 20).length = 20 :=
  C7_row_lengths "Іван" check91 20 (by decide) (by decide)
    (by decide) (by decide) (by decide)

/-- The width defaults declared by GET `/checks/{check_id}/text`. -/
def defaultWidths : TextWidths := ⟨10, 6, 12, 20, 12, 20, 15, 20⟩

/-- C8: the text-receipt operation is keyed by check id alone and
applies no owner scoping: the handler result is identical for any two
request identities (the route declares no authentication dependency),
and whenever the check with the requested id exists — whoever owns it —
the full rendered receipt of that stored check is returned, a function
of the stored rows and the width parameters only. -/
theorem C8_text_receipt_unscoped (r1 r2 : Option PyUser) (check_id : Nat)
    (w : TextWidths) (s : Store) :
    get_check_text_request r1 check_id w s = get_check_text_request r2 check_id w s ∧
    (∀ c u, s.checks.find? (fun x => x.id == check_id) = some c →
      s.users.find? (fun x => x.id == c.user_id) = some u →
      get_check_text_request r1 check_id w s =
        .ok (render_check_text c u
          (s.products.filter (fun p => p.check_id == c.id)) w)) := by
  constructor
  · rfl
  · intro c u h1 h2
    have hcid : c.id = check_id := by simpa using List.find?_some h1
    unfold get_check_text_request get_check_text
    rw [h1]
    dsimp only
    rw [h2]

/-- C8 witness: check 7 belongs to user B, yet a request authenticated
as user A and an unauthenticated request both receive B's full rendered
receipt. -/
theorem C8_text_receipt_unscoped_witness :
    get_check_text_request (some userA) 7 defaultWidths storeB =
      get_check_text_request none 7 defaultWidths storeB ∧
    get_check_text_request (some userA) 7 defaultWidths storeB =
      .ok (render_check_text checkB userB
        (storeB.products.filter (fun p => p.check_id == checkB.id)) defaultWidths) :=
  ⟨(C8_text_receipt_unscoped (some userA) none 7 defaultWidths storeB).1,
   (C8_text_receipt_unscoped (some userA) none 7 defaultWidths storeB).2
     checkB userB (by decide) (by decide)⟩

/-- C10: `created_at` is stored at date granularity — `datetime.now()
.date()` discards the time of day — and since `date.strftime` formats
the zeroed `timetuple`, the `%d.%m.%Y %H:%M` timestamp placed in the
receipt footer always ends in "00:00", whatever the wall-clock time at
creation was. -/
theorem C10_footer_always_midnight (now : PyDateTime) :
    storedDate now = storedDate ⟨now.year, now.month, now.day, 0, 0⟩ ∧
    ∃ p, dateStrftimeDmyHm (storedDate now) = p ++ " 00:00" := by
  constructor
  · rfl
  · simp only [dateStrftimeDmyHm, strftimeDmyHm, PyDate.timetuple, storedDate,
      PyDateTime.date]
    refine ⟨pad2 now.day ++ "." ++ pad2 now.month ++ "." ++ pad4 now.year, ?_⟩
    have hb : (" " ++ pad2 0 ++ ":" ++ pad2 0 : String) = " 00:00" := by decide
    rw [hb]

/-- A request of everyday decimal amounts: 0.10 × 1 and 0.20 × 1 paid
with exactly 0.30. -/
def mixedDecimalRequest : CheckCreate :=
  ⟨[⟨"A", 1/10, 1⟩, ⟨"B", 1/5, 1⟩], ⟨"cash", 3/10⟩⟩

/-- A rational refuted against every dyadic form has `dyadicDen = false`. -/
theorem dyadicDen_eq_false (x : ℚ)
    (h : ∀ (m : ℤ) (k : ℕ), x ≠ (m : ℚ) / 2 ^ k) : dyadicDen x = false := by
  cases hb : dyadicDen x with
  | false => rfl
  | true =>
      obtain ⟨m, k, hx⟩ := (dyadic_iff_dyadicDen x).mpr hb
      exact absurd hx (h m k)

/-- A multiple of a tenth whose numerator is not divisible by 5 is not a
dyadic rational. -/
theorem tenths_not_dyadic (a : ℤ) (ha : ¬ (5 : ℤ) ∣ a) (m : ℤ) (k : ℕ) :
    ((a : ℚ) / 10) ≠ (m : ℚ) / 2 ^ k := by
  intro heq
  have hq : (a : ℚ) * 2 ^ k = m * 10 := by
    field_simp at heq
    linarith
  have hz : a * 2 ^ k = m * 10 := by exact_mod_cast hq
  have h5 : (5 : ℤ) ∣ a * 2 ^ k := ⟨2 * m, by linarith⟩
  have hpr : Prime (5 : ℤ) := by norm_num
  rcases hpr.2.2 a (2 ^ k) h5 with h1 | h2
  · exact ha h1
  · have := hpr.dvd_of_dvd_pow h2
    omega

/-- C3: evaluating `create_check` at the failing input — line items
0.10 × 1 and 0.20 × 1, payment 0.30 — the exact `Decimal` layer computes
line totals 0.10 and 0.20 and a check with total 0.30, rest 0: the
invariants hold there.  But 0.10, 0.20 and 0.30 are not dyadic
rationals, so the binary `Float` columns in which
`src/products/models.py` / `src/checks/models.py` store line totals and
check total cannot hold any of them exactly; after the storage rounding
(`float(0.1) + float(0.2) ≠ float(0.3)`) the claim's exact equality
between the stored total and the sum of the stored line totals fails,
though the claim is what the spec (§3 invariants) intends. -/
theorem C3_float_columns_break_stored_invariants :
    ((create_check mixedDecimalRequest userA store0).1).products.map
        (fun p => p.total) = [1/10, 1/5] ∧
    ((create_check mixedDecimalRequest userA store0).1).checks.map
        (fun c => (c.total, c.rest, c.payment_amount)) = [(3/10, 0, 3/10)] ∧
    dyadicDen (1/10) = false ∧
    dyadicDen (1/5) = false ∧
    dyadicDen (3/10) = false := by
  have h : checkCreateTotal mixedDecimalRequest ≤
      mixedDecimalRequest.payment.amount := by
    simp [checkCreateTotal, mixedDecimalRequest]
    norm_num
  obtain ⟨hc, hp⟩ := create_check_sufficient mixedDecimalRequest userA store0 h
  refine ⟨?_, ?_, ?_, ?_, ?_⟩
  · rw [hp]
    simp [store0, add_products_to_check, mixedDecimalRequest]
  · rw [hc]
    simp [store0, create_check_record, checkCreateTotal, mixedDecimalRequest]
    norm_num
  · apply dyadicDen_eq_false
    intro m k
    have h1 : (1/10 : ℚ) = ((1 : ℤ) : ℚ) / 10 := by norm_num
    rw [h1]
    exact tenths_not_dyadic 1 (by omega) m k
  · apply dyadicDen_eq_false
    intro m k
    have h2 : (1/5 : ℚ) = ((2 : ℤ) : ℚ) / 10 := by norm_num
    rw [h2]
    exact tenths_not_dyadic 2 (by omega) m k
  · apply dyadicDen_eq_false
    intro m k
    exact three_tenths_not_dyadic m k
